import Mathlib

/-!
# Verification of the drone-management flight-simulation core

Shallow embedding of the server-side flight simulation engine of the
Drone_Mnagement-system repository, together with proofs settling the
frozen specification claims.

Embedded source files:
* `src/server/src/services/simulation/FlightDynamics.js`  (class FlightDynamics)
* `src/server/src/services/simulationService.js`          (registry of running simulations)
* `src/server/src/services/missionControlService.js`      (mission lifecycle state machine)
* `src/unnamed/part_028`                                  (PathStrategies, server path generation)
* `src/client/src/services/authService.js` second unit    (class FlightPathGenerator, client path generation)

Modelling conventions:
* JavaScript numbers are modelled as `ℚ` (exact rational arithmetic); where a
  claim is about non-finite values (NaN/Infinity) a coordinate is modelled as
  `Option ℚ` with `none` standing for a non-finite number.
* The transcendental functions of JavaScript `Math` (`sin`, `cos`, `atan2`,
  `sqrt`, `asin`, `tan`) and the constant `Math.PI` are irrational, so they are
  modelled as an explicit parameter record `JsMath`; the properties proved
  below hold for every parameter choice satisfying `JsMath.Ok`, two facts that
  are true of the real functions (`sqrt` is nonnegative, and `atan2 y x` is
  nonnegative when `y` is).  No proved statement depends on the numeric values
  these functions return.
* Stateful JavaScript (mutation of `this`, the module-level `simulations` map,
  socket emissions) is modelled by explicit state passing: each operation maps
  the state it reads to the state it leaves behind plus the events it emitted.
-/

/-- JavaScript `%` on numbers: remainder with truncation toward zero
(`a % b = a - b * trunc (a / b)`).  Used only for the heading normalisation
`(bearing * 180 / Math.PI + 360) % 360`; no proof depends on its value. -/
def jsMod (a b : ℚ) : ℚ :=
  a - b * (if 0 ≤ a / b then (⌊a / b⌋ : ℚ) else (⌈a / b⌉ : ℚ))

/-- The `Math` functions used by the embedded code, as explicit parameters
(see the header comment). -/
structure JsMath where
  piq : ℚ
  sinq : ℚ → ℚ
  cosq : ℚ → ℚ
  asinq : ℚ → ℚ
  tanq : ℚ → ℚ
  sqrtq : ℚ → ℚ
  atan2q : ℚ → ℚ → ℚ

/-- The two facts about `Math.sqrt` and `Math.atan2` that the battery/speed
proofs rely on; both hold for the real functions. -/
def JsMath.Ok (m : JsMath) : Prop :=
  (∀ q : ℚ, 0 ≤ m.sqrtq q) ∧ (∀ y x : ℚ, 0 ≤ y → 0 ≤ m.atan2q y x)

/-- A concrete instantiation of the `Math` parameters, used by the closed
witness/counterexample statements (it satisfies `JsMath.Ok`). -/
def absMath : JsMath :=
  { piq := 355 / 113
    sinq := fun q => q
    cosq := fun q => q
    asinq := fun q => q
    tanq := fun q => q
    sqrtq := fun q => |q|
    atan2q := fun y _ => |y| }

/-- A geographic position `{ lat, lng }` as used by the server code. -/
structure SPoint where
  lat : ℚ
  lng : ℚ
deriving DecidableEq, Repr

/-- The lifecycle states of `FlightDynamics.state`
(`'IDLE', 'TAKEOFF', 'FLYING', 'HOVERING', 'RTH', 'LANDING', 'CHARGING'`). -/
inductive DroneLifecycle where
  | IDLE | TAKEOFF | FLYING | HOVERING | RTH | LANDING | CHARGING
deriving DecidableEq, Repr

/-- The mutable fields of a `FlightDynamics` instance
(`src/server/src/services/simulation/FlightDynamics.js`, constructor). -/
structure DynamicsState where
  position : SPoint
  altitude : ℚ
  speed : ℚ
  maxSpeed : ℚ
  heading : ℚ
  battery : ℚ
  state : DroneLifecycle
deriving DecidableEq, Repr

namespace FlightDynamics

/-- `new FlightDynamics(initialState)` followed by nothing: the constructor.
`initialState.position || {lat:0,lng:0}` and `initialState.battery || 100`
are modelled by `Option.getD`. -/
def mkDynamics (position : Option SPoint) (altitude : ℚ) (battery : Option ℚ) :
    DynamicsState :=
  { position := position.getD ⟨0, 0⟩
    altitude := altitude
    speed := 0
    maxSpeed := 15
    heading := 0
    battery := battery.getD 100
    state := .IDLE }

/-- `FlightDynamics._updateMovement(dt, target)`: great-circle distance and
bearing to the target, a rate-limited speed controller, and the spherical
destination-point formula.  Transliterated from the source; the trigonometric
calls go through the `JsMath` parameter `m`. -/
def updateMovement (m : JsMath) (dt : ℚ) (target : Option SPoint)
    (s : DynamicsState) : DynamicsState :=
  match target with
  | none => s
  | some t =>
    let R : ℚ := 6371000
    let dLat := (t.lat - s.position.lat) * m.piq / 180
    let dLon := (t.lng - s.position.lng) * m.piq / 180
    let a := m.sinq (dLat / 2) * m.sinq (dLat / 2) +
      m.cosq (s.position.lat * m.piq / 180) * m.cosq (t.lat * m.piq / 180) *
      m.sinq (dLon / 2) * m.sinq (dLon / 2)
    let c := 2 * m.atan2q (m.sqrtq a) (m.sqrtq (1 - a))
    let distance := R * c
    let desiredSpeed := min s.maxSpeed distance
    let acceleration : ℚ := 2
    let speed1 :=
      if s.speed < desiredSpeed then min (s.speed + acceleration * dt) desiredSpeed
      else max (s.speed - acceleration * dt) desiredSpeed
    if 1 / 2 < distance then
      let bearing := m.atan2q
        (m.sinq dLon * m.cosq (t.lat * m.piq / 180))
        (m.cosq (s.position.lat * m.piq / 180) * m.sinq (t.lat * m.piq / 180) -
          m.sinq (s.position.lat * m.piq / 180) * m.cosq (t.lat * m.piq / 180) *
          m.cosq dLon)
      let heading1 := jsMod (bearing * 180 / m.piq + 360) 360
      let distMoved := speed1 * dt
      let angularDist := distMoved / R
      let lat1 := s.position.lat * m.piq / 180
      let lon1 := s.position.lng * m.piq / 180
      let lat2 := m.asinq (m.sinq lat1 * m.cosq angularDist +
        m.cosq lat1 * m.sinq angularDist * m.cosq bearing)
      let lon2 := lon1 + m.atan2q
        (m.sinq bearing * m.sinq angularDist * m.cosq lat1)
        (m.cosq angularDist - m.sinq lat1 * m.sinq lat2)
      { s with
        speed := speed1
        heading := heading1
        position := ⟨lat2 * 180 / m.piq, lon2 * 180 / m.piq⟩ }
    else
      { s with speed := speed1 }

/-- `FlightDynamics._updateBattery(dt)`: base drain 0.05 %/s, plus a speed
factor while FLYING, a fixed 0.08 %/s while HOVERING; clamps below at 0. -/
def updateBattery (dt : ℚ) (s : DynamicsState) : DynamicsState :=
  let drainRate : ℚ :=
    if s.state = .FLYING then 1 / 20 + s.speed / s.maxSpeed * (1 / 10)
    else if s.state = .HOVERING then 2 / 25
    else 1 / 20
  { s with battery := max 0 (s.battery - drainRate * dt) }

/-- `FlightDynamics._updateCharging(dt)`: charge at 2 %/s, clamp above at 100,
and switch to IDLE when the battery reaches 100. -/
def updateCharging (dt : ℚ) (s : DynamicsState) : DynamicsState :=
  let battery1 := min 100 (s.battery + 2 * dt)
  { s with
    battery := battery1
    state := if 100 ≤ battery1 then .IDLE else s.state }

/-- `FlightDynamics.update(dt, target)`: charging short-circuits; otherwise
movement runs only while FLYING or RTH, and the battery drain runs in every
non-charging state. -/
def update (m : JsMath) (dt : ℚ) (target : Option SPoint)
    (s : DynamicsState) : DynamicsState :=
  if s.state = .CHARGING then
    updateCharging dt s
  else
    let s1 := if s.state = .FLYING ∨ s.state = .RTH then updateMovement m dt target s else s
    updateBattery dt s1

/-- `FlightDynamics.setTargetSpeed(speed)`: clamp the configured max speed to
`[1, 20]`. -/
def setTargetSpeed (s : DynamicsState) (speed : ℚ) : DynamicsState :=
  { s with maxSpeed := max 1 (min 20 speed) }

end FlightDynamics

/-- A JavaScript exception as observed by a caller: a plain `Error` with a
message, or a runtime `TypeError` (e.g. calling a method on `undefined`). -/
inductive JsErr where
  | error (msg : String)
  | typeError (msg : String)
deriving DecidableEq, Repr

/-- A GeoJSON-like survey area as consumed by `PathStrategies`
(`src/unnamed/part_028`): a `type` tag and an optional list of rings, each
ring a list of `[lng, lat]` positions.  `coordinates = none` models an absent
(`undefined`/`null`) field, which is falsy in the source's
`!surveyArea.coordinates` guard; an empty list of rings is truthy there. -/
structure GeoArea where
  type : String
  coordinates : Option (List (List (ℚ × ℚ)))

/-- ASCII lower-casing of one character (the only case the embedded pattern
names need; structural, so that concrete calls evaluate). -/
def jsToLowerChar (c : Char) : Char :=
  if c.isUpper then Char.ofNat (c.toNat + 32) else c

/-- `String.prototype.toLowerCase()` on ASCII pattern names. -/
def jsToLower (s : String) : String :=
  ⟨s.data.map jsToLowerChar⟩

/-- ASCII upper-casing of one character. -/
def jsToUpperChar (c : Char) : Char :=
  if c.isLower then Char.ofNat (c.toNat - 32) else c

/-- `String.prototype.toUpperCase()` on ASCII status names. -/
def jsToUpper (s : String) : String :=
  ⟨s.data.map jsToUpperChar⟩

namespace PathStrategies

/-- One vertical boustrophedon sweep of `PathStrategies._generateGridPath`:
`while (x <= bbox[2]) { push {lat:yStart,lng:x}; push {lat:yEnd,lng:x};
x += spacing; movingUp = !movingUp }`.  The loop is modelled with explicit
fuel; `gridFuelSrv` below always provides enough fuel when `spacing > 0`
(the only case in the source, whose spacings are the constants 0.0005 and
0.0003; for `spacing ≤ 0` the JavaScript loop would not terminate). -/
def gridAux : Nat → ℚ → ℚ → ℚ → ℚ → ℚ → Bool → List SPoint
  | 0, _, _, _, _, _, _ => []
  | fuel + 1, x, maxX, minY, maxY, spacing, movingUp =>
    if x ≤ maxX then
      let yStart := if movingUp then minY else maxY
      let yEnd := if movingUp then maxY else minY
      ⟨yStart, x⟩ :: ⟨yEnd, x⟩ :: gridAux fuel (x + spacing) maxX minY maxY spacing (!movingUp)
    else []

/-- Enough fuel for the sweep loop from `lo` to `hi` with step `spacing`. -/
def gridFuelSrv (lo hi spacing : ℚ) : Nat :=
  (⌈(hi - lo) / spacing⌉).toNat + 1

/-- `turf.bbox(surveyArea)` over the polygon's positions, as
`(minX, minY, maxX, maxY)`; `none` when the polygon has no position at all
(in JavaScript the bbox is then infinite and every sweep loop below runs
zero times). -/
def bboxSrv (rings : List (List (ℚ × ℚ))) : Option (ℚ × ℚ × ℚ × ℚ) :=
  match rings.flatten with
  | [] => none
  | p :: ps =>
    some ((ps.map Prod.fst).foldl min p.1,
          (ps.map Prod.snd).foldl min p.2,
          (ps.map Prod.fst).foldl max p.1,
          (ps.map Prod.snd).foldl max p.2)

/-- `PathStrategies._generateGridPath(surveyArea, { spacing })`: vertical
scan lines over the bounding box, alternating direction. -/
def generateGridPathSrv (rings : List (List (ℚ × ℚ))) (spacing : ℚ) : List SPoint :=
  match bboxSrv rings with
  | none => []
  | some (minX, minY, maxX, maxY) =>
    gridAux (gridFuelSrv minX maxX spacing) minX maxX minY maxY spacing true

/-- The horizontal passes of `PathStrategies._generateCrosshatchPath`:
`while (y <= bbox[3]) { push {lat:y,lng:xStart}; push {lat:y,lng:xEnd}; ... }`. -/
def crossAux : Nat → ℚ → ℚ → ℚ → ℚ → ℚ → Bool → List SPoint
  | 0, _, _, _, _, _, _ => []
  | fuel + 1, y, maxY, minX, maxX, spacing, movingRight =>
    if y ≤ maxY then
      let xStart := if movingRight then minX else maxX
      let xEnd := if movingRight then maxX else minX
      ⟨y, xStart⟩ :: ⟨y, xEnd⟩ :: crossAux fuel (y + spacing) maxY minX maxX spacing (!movingRight)
    else []

/-- `PathStrategies._generateCrosshatchPath`: horizontal passes followed by
vertical passes over the same bounding box. -/
def generateCrosshatchPathSrv (rings : List (List (ℚ × ℚ))) (spacing : ℚ) : List SPoint :=
  match bboxSrv rings with
  | none => []
  | some (minX, minY, maxX, maxY) =>
    crossAux (gridFuelSrv minY maxY spacing) minY maxY minX maxX spacing true ++
    gridAux (gridFuelSrv minX maxX spacing) minX maxX minY maxY spacing true

/-- `PathStrategies._generatePerimeterPath`: the boundary ring itself when the
area is a `'Polygon'`.  The body runs inside `try/catch`, so the `undefined`
access on a polygon without rings is caught and yields `[]`. -/
def generatePerimeterPathSrv (ptype : String) (rings : List (List (ℚ × ℚ))) : List SPoint :=
  if ptype = "Polygon" then
    match rings.head? with
    | none => []
    | some ring => ring.map fun c => ⟨c.2, c.1⟩
  else []

/-- `PathStrategies.generate(type, surveyArea)`: dispatch on the pattern type
(lower-cased), falling back to the grid pattern.  The `'waypoint'` branch is
the only one not wrapped in `try/catch`: on a survey area whose
`coordinates` list has no ring it evaluates `undefined.map`, so the
`TypeError` escapes to the caller. -/
def generate (ptype : String) (surveyArea : Option GeoArea) :
    Except JsErr (List SPoint) :=
  match surveyArea with
  | none => .ok []
  | some area =>
    match area.coordinates with
    | none => .ok []
    | some rings =>
      match jsToLower ptype with
      | "grid" => .ok (generateGridPathSrv rings (1 / 2000))
      | "crosshatch" => .ok (generateCrosshatchPathSrv rings (1 / 2000))
      | "perimeter" => .ok (generatePerimeterPathSrv area.type rings)
      | "hatch" => .ok (generateGridPathSrv rings (3 / 10000))
      | "waypoint" =>
        match rings.head? with
        | none => .error (.typeError "Cannot read properties of undefined (reading map)")
        | some ring => .ok (ring.map fun c => ⟨c.2, c.1⟩)
      | _ => .ok (generateGridPathSrv rings (1 / 2000))

end PathStrategies

/-- A socket event emitted by the simulation service; the claims below only
inspect `mission:status` emissions, so the payload is reduced to the mission
id and the `status` field. -/
inductive SimEvent where
  | missionStatus (missionId : String) (status : String)
deriving DecidableEq, Repr

/-- One entry of the module-level `simulations` map of
`src/server/src/services/simulationService.js`:
`{ intervalId, dynamics, path }`.  The interval handle is modelled by
`timerActive` (`true` while a tick timer is scheduled; `clearInterval`
sets it to `false`). -/
structure SimHandle where
  timerActive : Bool
  dynamics : DynamicsState
  path : List SPoint
deriving DecidableEq, Repr

/-- The `simulations` map (`Map<missionId, handle>`), as an association list. -/
abbrev Registry := List (String × SimHandle)

/-- `simulations.get(missionId)`. -/
def regFind : Registry → String → Option SimHandle
  | [], _ => none
  | (k, v) :: rest, missionId => if k = missionId then some v else regFind rest missionId

/-- `simulations.delete(missionId)`. -/
def regErase (reg : Registry) (missionId : String) : Registry :=
  reg.filter fun e => !(e.1 == missionId)

/-- In-place mutation of the handle object returned by `simulations.get`. -/
def regModify (reg : Registry) (missionId : String) (f : SimHandle → SimHandle) : Registry :=
  reg.map fun e => if e.1 = missionId then (e.1, f e.2) else e

/-- Number of registry entries for a mission id (a JavaScript `Map` holds at
most one, and the embedding only inserts when the key is absent). -/
def regCount (reg : Registry) (missionId : String) : Nat :=
  reg.countP fun e => e.1 == missionId

/-- The mission descriptor fields that `startSimulation` reads from
`missionService.getMission` (an external repository collaborator).
`survey_area` is modelled already-structured: the source additionally
`JSON.parse`s it when the repository returns it serialised as a string. -/
structure SimMission where
  drone_id : String
  flight_pattern : Option String
  survey_area : Option GeoArea
  speed : Option ℚ

/-- The observable outcome of a `startSimulation` call: the exception it threw
(if any), the registry it left behind, and the `mission:status` events it
emitted.  In the source every `throw` happens before the first emission and
before the registry insert, which the theorems below make explicit. -/
structure StartResult where
  err : Option JsErr
  registry : Registry
  events : List SimEvent
deriving DecidableEq

namespace SimulationService

/-- `simulationService.startSimulation(missionId, io, flightPatternOverride)`
(`src/server/src/services/simulationService.js`).  Transliterated control
flow: idempotence guard, mission lookup, pattern fallback
(`flightPatternOverride || mission.flight_pattern || 'grid'`), path
generation (propagating any escaping exception), the empty-path check, the
`FlightDynamics` initialisation, the `started` status emission, the interval
creation and the registry insert.  The body of the 20 Hz tick callback is not
consulted by any claim and is represented by the scheduled timer
(`timerActive = true`). -/
def startSimulation (missions : String → Option SimMission) (reg : Registry)
    (missionId : String) (flightPatternOverride : Option String) : StartResult :=
  if (regFind reg missionId).isSome then
    { err := none, registry := reg, events := [] }
  else
    match missions missionId with
    | none => { err := some (.error "Mission not found"), registry := reg, events := [] }
    | some mission =>
      let flightPattern := flightPatternOverride.getD (mission.flight_pattern.getD "grid")
      match PathStrategies.generate flightPattern mission.survey_area with
      | .error e => { err := some e, registry := reg, events := [] }
      | .ok flightPath =>
        if flightPath.isEmpty then
          { err := some (.error "Could not generate flight path"), registry := reg, events := [] }
        else
          let dynamics0 := FlightDynamics.mkDynamics flightPath.head? 0 (some 100)
          let dynamics1 := { dynamics0 with state := DroneLifecycle.TAKEOFF }
          let dynamics2 := FlightDynamics.setTargetSpeed dynamics1 (mission.speed.getD 10)
          { err := none
            registry := (missionId, ⟨true, dynamics2, flightPath⟩) :: reg
            events := [SimEvent.missionStatus missionId "started"] }

/-- `simulationService.stopSimulation(missionId)`: clear the interval and
delete the entry when present; otherwise do nothing. -/
def stopSimulation (reg : Registry) (missionId : String) : Registry :=
  match regFind reg missionId with
  | some _ => regErase reg missionId
  | none => reg

/-- `simulationService.setSpeed(missionId, speed)`: forward to
`dynamics.setTargetSpeed` when present; otherwise do nothing. -/
def setSpeed (reg : Registry) (missionId : String) (speed : ℚ) : Registry :=
  match regFind reg missionId with
  | some _ =>
    regModify reg missionId fun h =>
      { h with dynamics := FlightDynamics.setTargetSpeed h.dynamics speed }
  | none => reg

/-- `simulationService.triggerRTH(missionId)`: set `dynamics.state = 'RTH'`
when present; otherwise do nothing. -/
def triggerRTH (reg : Registry) (missionId : String) : Registry :=
  match regFind reg missionId with
  | some _ =>
    regModify reg missionId fun h =>
      { h with dynamics := { h.dynamics with state := DroneLifecycle.RTH } }
  | none => reg

/-- `simulationService.pauseSimulation(missionId)`: clear the interval but
keep the entry (and its dynamics) in the map. -/
def pauseSimulation (reg : Registry) (missionId : String) : Registry :=
  match regFind reg missionId with
  | some _ => regModify reg missionId fun h => { h with timerActive := false }
  | none => reg

/-- `simulationService.resumeSimulation(missionId, io)`: the source body is
empty apart from comments (`// Re-create interval with existing dynamics...
(simplified for now)`), so the call has no effect at all. -/
def resumeSimulation (reg : Registry) (_missionId : String) : Registry :=
  reg

end SimulationService

/-- A stored mission row, restricted to the fields `_changeStatus` reads or
writes (`src/server/src/services/missionControlService.js`; the `Mission`
model is a thin SQL wrapper modelled as a key-value store). -/
structure MissionRec where
  status : String
  drone_id : Option String
  started_at : Option ℚ
  completed_at : Option ℚ
deriving DecidableEq, Repr

/-- One `MissionLog.create` row. -/
structure LogRec where
  mission_id : String
  user_id : String
  action : String
deriving DecidableEq, Repr

/-- The persistent state `_changeStatus` touches: mission rows, drone status
rows, and the mission log. -/
structure ControlDb where
  missions : List (String × MissionRec)
  drones : List (String × String)
  logs : List LogRec
deriving DecidableEq

/-- `Mission.findById`. -/
def findMission : List (String × MissionRec) → String → Option MissionRec
  | [], _ => none
  | (k, v) :: rest, missionId => if k = missionId then some v else findMission rest missionId

/-- `Mission.update(missionId, updates)`. -/
def updateMission (rows : List (String × MissionRec)) (missionId : String)
    (f : MissionRec → MissionRec) : List (String × MissionRec) :=
  rows.map fun e => if e.1 = missionId then (e.1, f e.2) else e

/-- `Drone.update(droneId, { status })`. -/
def updateDrone (rows : List (String × String)) (droneId status : String) :
    List (String × String) :=
  rows.map fun e => if e.1 = droneId then (e.1, status) else e

namespace MissionControl

/-- The `VALID_TRANSITIONS` table of `missionControlService.js`, keyed by the
status strings stored in the database; `none` models an absent key (the
source then falls back to `[]` via `|| []`). -/
def VALID_TRANSITIONS (s : String) : Option (List String) :=
  if s = "planned" then some ["starting", "aborted"]
  else if s = "starting" then some ["in-progress", "aborted", "failed"]
  else if s = "in-progress" then some ["paused", "completed", "aborted", "failed"]
  else if s = "paused" then some ["in-progress", "aborted"]
  else if s = "aborted" then some []
  else if s = "completed" then some []
  else if s = "failed" then some []
  else none

/-- `missionControlService.isValidTransition(currentState, targetState)`. -/
def isValidTransition (currentState targetState : String) : Bool :=
  ((VALID_TRANSITIONS currentState).getD []).contains targetState

/-- The outcome of a `_changeStatus` call: the error it threw (if any), the
database it left behind, and the mission row it returned. -/
structure ChangeResult where
  err : Option String
  db : ControlDb
  ret : Option MissionRec
deriving DecidableEq

/-- `missionControlService._changeStatus(missionId, newState, userId, reason)`:
look the mission up, reject invalid transitions before any write, then apply
the status-specific field updates, the drone-status update and the log entry.
`now` stands for `new Date()`. -/
def changeStatus (db : ControlDb) (missionId newState userId : String)
    (now : ℚ) : ChangeResult :=
  match findMission db.missions missionId with
  | none => { err := some "Mission not found", db := db, ret := none }
  | some mission =>
    if !isValidTransition mission.status newState then
      { err := some ("Invalid transition from " ++ mission.status ++ " to " ++ newState)
        db := db, ret := none }
    else
      let applyUpdates : MissionRec → MissionRec := fun m =>
        let m1 := { m with status := newState }
        let m2 := if newState = "starting" then { m1 with started_at := some now } else m1
        if ["completed", "aborted", "failed"].contains newState then
          { m2 with completed_at := some now }
        else m2
      let missions1 := updateMission db.missions missionId applyUpdates
      let drones1 :=
        match mission.drone_id with
        | none => db.drones
        | some droneId =>
          let droneStatus :=
            if ["starting", "in-progress"].contains newState then "in-mission"
            else "available"
          updateDrone db.drones droneId droneStatus
      let logs1 := db.logs ++
        [{ mission_id := missionId, user_id := userId
           action := "STATUS_CHANGE_" ++ jsToUpper newState }]
      let db1 : ControlDb := { missions := missions1, drones := drones1, logs := logs1 }
      { err := none, db := db1, ret := findMission db1.missions missionId }

end MissionControl

/-- A client-side waypoint `[lat, lng]` (the client generator works on plain
two-element arrays). -/
abbrev CPoint := ℚ × ℚ

/-- A raw GeoJSON coordinate as the client validates it: a list of numbers,
each either finite (`some q`) or non-finite (`none`, standing for `NaN` or
`±Infinity`).  A list shorter than 2 models a malformed coordinate. -/
abbrev RawCoord := List (Option ℚ)

/-- The client-side survey area: `coordinates = none` models an absent field,
`coordinates[0]` is the outer ring. -/
structure ClientArea where
  coordinates : Option (List (List RawCoord))

/-- The parameter record of `FlightPathGenerator` (`DEFAULT_PARAMS` merged
with per-call options). -/
structure CParams where
  overlap : ℚ
  altitude : ℚ
  turningRadius : ℚ
  pathSpacing : ℚ
  numLaps : Option Nat

/-- `DEFAULT_PARAMS` of the client generator. -/
def defaultParams : CParams :=
  { overlap := 7 / 10, altitude := 50, turningRadius := 5
    pathSpacing := 3 / 10000, numLaps := none }

namespace FlightPathGenerator

/-- `coord[i]` read as a number (0 is never reached on validated input). -/
def coordAt (c : RawCoord) (i : Nat) : ℚ :=
  (c.getD i none).getD 0

/-- The per-coordinate validation of `FlightPathGenerator.generate`:
`!Array.isArray(coord) || coord.length < 2 || !isFinite(coord[0]) ||
!isFinite(coord[1])` (in this model every entry is an array, so the
`isArray` conjunct cannot fire). -/
def badCoord (c : RawCoord) : Bool :=
  decide (c.length < 2) || (c.getD 0 none).isNone || (c.getD 1 none).isNone

/-- The bounding box computed by `FlightPathGenerator.calculateBounds`. -/
structure CBounds where
  minLat : ℚ
  maxLat : ℚ
  minLng : ℚ
  maxLng : ℚ
  centerLat : ℚ
  centerLng : ℚ

/-- `FlightPathGenerator.calculateBounds(coords)`.  On an empty list
`Math.min()` would be `Infinity`; that case sits behind the ≥ 3-vertex guard
and is modelled by an arbitrary box. -/
def calculateBounds (coords : List RawCoord) : CBounds :=
  match coords with
  | [] => ⟨0, 0, 0, 0, 0, 0⟩
  | c :: cs =>
    let minLat := (cs.map fun x => coordAt x 1).foldl min (coordAt c 1)
    let maxLat := (cs.map fun x => coordAt x 1).foldl max (coordAt c 1)
    let minLng := (cs.map fun x => coordAt x 0).foldl min (coordAt c 0)
    let maxLng := (cs.map fun x => coordAt x 0).foldl max (coordAt c 0)
    ⟨minLat, maxLat, minLng, maxLng, (minLat + maxLat) / 2, (minLng + maxLng) / 2⟩

/-- `FlightPathGenerator.easeInOutQuad(t)`. -/
def easeInOutQuad (t : ℚ) : ℚ :=
  if t < 1 / 2 then 2 * t * t else 1 - (-2 * t + 2) ^ 2 / 2

/-- `FlightPathGenerator.interpolatePoints(start, end, numPoints, smooth)`.
Over exact rationals every interpolated point is finite, so the source's
`isFinite` filters never drop a point. -/
def interpolatePoints (p q : CPoint) (numPoints : Nat) (smooth : Bool) : List CPoint :=
  (List.range (numPoints + 1)).map fun i =>
    let t : ℚ := (i : ℚ) / (numPoints : ℚ)
    let easedT := if smooth then easeInOutQuad t else t
    (p.1 + (q.1 - p.1) * easedT, p.2 + (q.2 - p.2) * easedT)

/-- `FlightPathGenerator.distance(p1, p2)` (`Math.sqrt` through `JsMath`). -/
def dist (m : JsMath) (p q : CPoint) : ℚ :=
  m.sqrtq ((q.1 - p.1) * (q.1 - p.1) + (q.2 - p.2) * (q.2 - p.2))

/-- `FlightPathGenerator.generateSmoothTurn(p1, corner, p2, radius)`:
nine points of a quadratic bezier.  (When a control distance is zero the
source produces `NaN` control points; rational division totalises this with
0.  No claim consults the turn points' values.) -/
def generateSmoothTurn (m : JsMath) (p1 corner p2 : CPoint) (radius : ℚ) : List CPoint :=
  let numPoints : Nat := 8
  let d1 := dist m p1 corner
  let d2 := dist m corner p2
  let offset := min (radius * (1 / 100000)) (min (d1 * (3 / 10)) (d2 * (3 / 10)))
  let cp1 : CPoint := (corner.1 + (p1.1 - corner.1) * offset / d1,
                       corner.2 + (p1.2 - corner.2) * offset / d1)
  let cp2 : CPoint := (corner.1 + (p2.1 - corner.1) * offset / d2,
                       corner.2 + (p2.2 - corner.2) * offset / d2)
  (List.range (numPoints + 1)).map fun i =>
    let t : ℚ := (i : ℚ) / (numPoints : ℚ)
    ((1 - t) * (1 - t) * cp1.1 + 2 * (1 - t) * t * corner.1 + t * t * cp2.1,
     (1 - t) * (1 - t) * cp1.2 + 2 * (1 - t) * t * corner.2 + t * t * cp2.2)

/-- The scan-line spacing `params.pathSpacing * (1 - params.overlap + 0.3)`
shared by the grid, crosshatch and hatch generators. -/
def gridSpacing (pathSpacing overlap : ℚ) : ℚ :=
  pathSpacing * (1 - overlap + 3 / 10)

/-- The `(startPoint, endPoint)` pair of each iteration of the
`generateGridPath` sweep loop
(`for (let lat = bounds.minLat; lat <= bounds.maxLat; lat += spacing)`,
`direction` alternating), with explicit fuel as in `PathStrategies.gridAux`. -/
def gridSegsAux : Nat → ℚ → ℚ → ℚ → ℚ → ℚ → Bool → List (CPoint × CPoint)
  | 0, _, _, _, _, _, _ => []
  | fuel + 1, lat, maxLat, minLng, maxLng, spacing, dir =>
    if lat ≤ maxLat then
      ((lat, if dir then minLng else maxLng), (lat, if dir then maxLng else minLng)) ::
        gridSegsAux fuel (lat + spacing) maxLat minLng maxLng spacing (!dir)
    else []

/-- The horizontal scan-line segments of `generateGridPath`. -/
def gridSegs (b : CBounds) (spacing : ℚ) : List (CPoint × CPoint) :=
  gridSegsAux (PathStrategies.gridFuelSrv b.minLat b.maxLat spacing)
    b.minLat b.maxLat b.minLng b.maxLng spacing true

/-- The waypoint-pushing part of the `generateGridPath` loop body: for each
scan line, a smooth turn from the previous line's end through the corner
`[lat, lastPoint[1]]`, then the interpolated line segment. -/
def gridExpand (m : JsMath) (radius : ℚ) :
    List (CPoint × CPoint) → Option CPoint → List CPoint
  | [], _ => []
  | (s, e) :: rest, lastPoint =>
    (match lastPoint with
     | none => []
     | some lp => generateSmoothTurn m lp (s.1, lp.2) s radius) ++
    interpolatePoints s e 20 false ++ gridExpand m radius rest (some e)

/-- `FlightPathGenerator.generateGridPath(bounds, coords, params)` (the
`coords` argument is unused in the source body).  The source's single loop is
factored into the segment list `gridSegs` and its expansion `gridExpand`. -/
def generateGridPath (m : JsMath) (b : CBounds) (p : CParams) : List CPoint :=
  gridExpand m p.turningRadius (gridSegs b (gridSpacing p.pathSpacing p.overlap)) none

/-- The vertical scan-line segments of the crosshatch's second pass
(`for (let lng = bounds.minLng; lng <= bounds.maxLng; lng += spacing)`). -/
def vertSegsAux : Nat → ℚ → ℚ → ℚ → ℚ → ℚ → Bool → List (CPoint × CPoint)
  | 0, _, _, _, _, _, _ => []
  | fuel + 1, lng, maxLng, minLat, maxLat, spacing, dir =>
    if lng ≤ maxLng then
      ((if dir then minLat else maxLat, lng), (if dir then maxLat else minLat, lng)) ::
        vertSegsAux fuel (lng + spacing) maxLng minLat maxLat spacing (!dir)
    else []

/-- The vertical scan-line segments of `generateCrosshatchPath`. -/
def vertSegs (b : CBounds) (spacing : ℚ) : List (CPoint × CPoint) :=
  vertSegsAux (PathStrategies.gridFuelSrv b.minLng b.maxLng spacing)
    b.minLng b.maxLng b.minLat b.maxLat spacing true

/-- Expansion of the vertical pass; its corner is `[lastPoint[0], lng]`. -/
def vertExpand (m : JsMath) (radius : ℚ) :
    List (CPoint × CPoint) → Option CPoint → List CPoint
  | [], _ => []
  | (s, e) :: rest, lastPoint =>
    (match lastPoint with
     | none => []
     | some lp => generateSmoothTurn m lp (lp.1, s.2) s radius) ++
    interpolatePoints s e 20 false ++ vertExpand m radius rest (some e)

/-- `FlightPathGenerator.generateCrosshatchPath(bounds, coords, params)`:
a horizontal pass, a smooth transition to `[minLat, minLng]`, then a
vertical pass with `lastPoint` seeded to that transition target. -/
def generateCrosshatchPath (m : JsMath) (b : CBounds) (p : CParams) : List CPoint :=
  let spacing := gridSpacing p.pathSpacing p.overlap
  let horiz := gridSegs b spacing
  let hPts := gridExpand m p.turningRadius horiz none
  let lastPoint := horiz.getLast?.map (·.2)
  let verticalStart : CPoint := (b.minLat, b.minLng)
  let trans :=
    match lastPoint with
    | some lp => interpolatePoints lp verticalStart 15 true
    | none => []
  hPts ++ trans ++ vertExpand m p.turningRadius (vertSegs b spacing) (some verticalStart)

/-- The inner `for (let i = 0; i < shrunkCoords.length; i++)` loop of one
perimeter lap; threads `lastPoint` and appends the lap's points. -/
def perimLap (shrunk : List CPoint) (lastPoint : Option CPoint) :
    List CPoint × Option CPoint :=
  (List.range shrunk.length).foldl
    (fun st i =>
      let current := shrunk.getD i (0, 0)
      let next := shrunk.getD ((i + 1) % shrunk.length) (0, 0)
      let transition :=
        if i = 0 then
          match st.2 with
          | some lp => interpolatePoints lp current 10 true
          | none => []
        else []
      (st.1 ++ transition ++ interpolatePoints current next 15 false, some next))
    (([] : List CPoint), lastPoint)

/-- `FlightPathGenerator.generatePerimeterPath(bounds, coords, params)`:
`numLaps` (default 4) shrinking laps around the ring. -/
def generatePerimeterPath (b : CBounds) (coords : List RawCoord) (p : CParams) :
    List CPoint :=
  let numLaps := p.numLaps.getD 4
  ((List.range numLaps).foldl
    (fun st lap =>
      let shrinkFactor : ℚ := 1 - (lap : ℚ) * (2 / 10)
      let shrunk : List CPoint := coords.map fun c =>
        (b.centerLat + (coordAt c 1 - b.centerLat) * shrinkFactor,
         b.centerLng + (coordAt c 0 - b.centerLng) * shrinkFactor)
      let stepped := perimLap shrunk st.2
      (st.1 ++ stepped.1, stepped.2))
    (([] : List CPoint), (none : Option CPoint))).1

/-- `FlightPathGenerator.generateWaypointPath(coords, params)`: point-to-point
flight along the ring's own vertices, `[lng,lat]` converted to `[lat,lng]`. -/
def generateWaypointPath (coords : List RawCoord) : List CPoint :=
  (List.range coords.length).flatMap fun i =>
    let c := coords.getD i []
    let current : CPoint := (coordAt c 1, coordAt c 0)
    let next := coords.getD ((i + 1) % coords.length) []
    let nextPoint : CPoint := (coordAt next 1, coordAt next 0)
    if i < coords.length - 1 then interpolatePoints current nextPoint 15 true
    else [current]

/-- Insertion of a point into a list sorted by latitude (the comparator
`(a, b) => a[0] - b[0]`). -/
def insertByLat (p : CPoint) : List CPoint → List CPoint
  | [] => [p]
  | q :: rest => if p.1 ≤ q.1 then p :: q :: rest else q :: insertByLat p rest

/-- `intersections.sort((a, b) => a[0] - b[0])`. -/
def sortByLat : List CPoint → List CPoint
  | [] => []
  | p :: rest => insertByLat p (sortByLat rest)

/-- `FlightPathGenerator.getDiagonalIntersections(bounds, offset, angle)`:
candidate intersections with the four box edges in source order, sorted by
latitude, first two kept. -/
def getDiagonalIntersections (m : JsMath) (b : CBounds) (offset angle : ℚ) :
    List CPoint :=
  let rad := angle * m.piq / 180
  let tn := m.tanq rad
  let centerX := b.centerLng
  let centerY := b.centerLat
  let xBottom := centerX + (b.minLat - centerY - offset) / tn
  let xTop := centerX + (b.maxLat - centerY - offset) / tn
  let yLeft := centerY + tn * (b.minLng - centerX) + offset
  let yRight := centerY + tn * (b.maxLng - centerX) + offset
  let cands :=
    (if b.minLng ≤ xBottom ∧ xBottom ≤ b.maxLng then [((b.minLat : ℚ), xBottom)] else []) ++
    (if b.minLng ≤ xTop ∧ xTop ≤ b.maxLng then [((b.maxLat : ℚ), xTop)] else []) ++
    (if b.minLat ≤ yLeft ∧ yLeft ≤ b.maxLat then [(yLeft, b.minLng)] else []) ++
    (if b.minLat ≤ yRight ∧ yRight ≤ b.maxLat then [(yRight, b.maxLng)] else [])
  (sortByLat cands).take 2

/-- `FlightPathGenerator.generateHatchPath(bounds, coords, params)`: diagonal
lines at 45°, skipping offsets with fewer than two box intersections. -/
def generateHatchPath (m : JsMath) (b : CBounds) (p : CParams) : List CPoint :=
  let spacing := gridSpacing p.pathSpacing p.overlap
  let width := b.maxLng - b.minLng
  let height := b.maxLat - b.minLat
  let diagonal := m.sqrtq (width * width + height * height)
  let numLines := (⌈diagonal / spacing⌉).toNat * 2
  ((List.range numLines).foldl
    (fun st i =>
      let offset := ((i : ℚ) - (numLines : ℚ) / 2) * spacing
      let ints := getDiagonalIntersections m b offset 45
      if 2 ≤ ints.length then
        let se := if st.2.1 then ints else ints.reverse
        let start := se.getD 0 (0, 0)
        let stop := se.getD 1 (0, 0)
        let turn :=
          match st.2.2 with
          | none => []
          | some lp =>
            generateSmoothTurn m lp ((lp.1 + start.1) / 2, (lp.2 + start.2) / 2)
              start p.turningRadius
        (st.1 ++ turn ++ interpolatePoints start stop 20 false, (!st.2.1, some stop))
      else st)
    (([] : List CPoint), (true, (none : Option CPoint)))).1

/-- `FlightPathGenerator.generate(surveyArea, missionType, options)`
(`src/client/src/services/authService.js`, second unit): validation of the
survey area — presence, an outer ring, at least 3 vertices, and per-coordinate
shape/finiteness — then dispatch on the mission type with grid as the
default.  The source's re-check that the computed bounds are finite cannot
fire over exact rationals once every coordinate is finite. -/
def generate (m : JsMath) (surveyArea : Option ClientArea) (missionType : String)
    (p : CParams) : List CPoint :=
  match surveyArea with
  | none => []
  | some area =>
    match area.coordinates with
    | none => []
    | some rings =>
      match rings.head? with
      | none => []
      | some coords =>
        if coords.length < 3 then []
        else if coords.any badCoord then []
        else
          let bounds := calculateBounds coords
          match missionType with
          | "grid" => generateGridPath m bounds p
          | "crosshatch" => generateCrosshatchPath m bounds p
          | "perimeter" => generatePerimeterPath bounds coords p
          | "waypoint" => generateWaypointPath coords
          | "hatch" => generateHatchPath m bounds p
          | _ => generateGridPath m bounds p

end FlightPathGenerator

/-! ## Concrete probe values used by witnesses and counterexamples -/

/-- The parameter record `absMath` satisfies the two `JsMath.Ok` facts. -/
lemma absMath_ok : absMath.Ok :=
  ⟨fun q => abs_nonneg q, fun y _ _ => abs_nonneg y⟩

/-- A drone state in mid-flight (used by concrete instantiations). -/
def flyProbe : DynamicsState :=
  { position := ⟨0, 0⟩, altitude := 50, speed := 5, maxSpeed := 15
    heading := 0, battery := 80, state := .FLYING }

/-- A drone state that is charging (used by concrete instantiations). -/
def chargeProbe : DynamicsState :=
  { position := ⟨0, 0⟩, altitude := 0, speed := 0, maxSpeed := 15
    heading := 0, battery := 50, state := .CHARGING }

/-- A freshly started drone state with a full battery (used by concrete
instantiations). -/
def pausedProbe : DynamicsState :=
  { position := ⟨0, 0⟩, altitude := 0, speed := 0, maxSpeed := 15
    heading := 0, battery := 100, state := .FLYING }

/-! ## Helper lemmas about `FlightDynamics` -/

namespace FlightDynamics

/-- `_updateMovement` only writes `speed`, `heading` and `position`. -/
lemma updateMovement_frame (m : JsMath) (dt : ℚ) (target : Option SPoint)
    (s : DynamicsState) :
    (updateMovement m dt target s).battery = s.battery ∧
    (updateMovement m dt target s).maxSpeed = s.maxSpeed ∧
    (updateMovement m dt target s).state = s.state ∧
    (updateMovement m dt target s).altitude = s.altitude := by
  cases target with
  | none => exact ⟨rfl, rfl, rfl, rfl⟩
  | some t =>
    simp only [updateMovement]
    split <;> exact ⟨rfl, rfl, rfl, rfl⟩

/-- The speed controller of `_updateMovement` never produces a negative
speed when the desired speed is nonnegative. -/
lemma speedStep_nonneg (speed maxSpeed D dt : ℚ) (hs : 0 ≤ speed)
    (hms : 0 ≤ maxSpeed) (hD : 0 ≤ D) (hdt : 0 ≤ dt) :
    0 ≤ (if speed < min maxSpeed D then min (speed + 2 * dt) (min maxSpeed D)
         else max (speed - 2 * dt) (min maxSpeed D)) := by
  have h1 : 0 ≤ min maxSpeed D := le_min hms hD
  split
  · exact le_min (by linarith) h1
  · exact le_trans h1 (le_max_right _ _)

/-- `_updateMovement` keeps the speed nonnegative: the haversine distance is
nonnegative for every `JsMath.Ok` parameter choice, hence so is the desired
speed. -/
lemma updateMovement_speed_nonneg (m : JsMath) (hm : m.Ok) (dt : ℚ)
    (target : Option SPoint) (s : DynamicsState) (hdt : 0 ≤ dt)
    (hs : 0 ≤ s.speed) (hms : 0 < s.maxSpeed) :
    0 ≤ (updateMovement m dt target s).speed := by
  cases target with
  | none => exact hs
  | some t =>
    simp only [updateMovement]
    split <;>
      exact speedStep_nonneg _ _ _ _ hs (le_of_lt hms)
        (mul_nonneg (by norm_num) (mul_nonneg (by norm_num) (hm.2 _ _ (hm.1 _)))) hdt

/-- `_updateBattery` never raises the battery and clamps it below at 0,
provided the drain rate is nonnegative (speed nonnegative, positive max
speed). -/
lemma updateBattery_bounds (dt : ℚ) (s : DynamicsState) (hdt : 0 ≤ dt)
    (hs : 0 ≤ s.speed) (hms : 0 < s.maxSpeed) (hb : 0 ≤ s.battery) :
    0 ≤ (updateBattery dt s).battery ∧ (updateBattery dt s).battery ≤ s.battery := by
  simp only [updateBattery]
  have hr : (0 : ℚ) ≤
      (if s.state = .FLYING then 1 / 20 + s.speed / s.maxSpeed * (1 / 10)
       else if s.state = .HOVERING then 2 / 25 else 1 / 20) := by
    split
    · have h := div_nonneg hs (le_of_lt hms)
      linarith
    · split <;> norm_num
  refine ⟨le_max_left _ _, max_le hb ?_⟩
  have h2 : 0 ≤
      (if s.state = .FLYING then 1 / 20 + s.speed / s.maxSpeed * (1 / 10)
       else if s.state = .HOVERING then 2 / 25 else 1 / 20) * dt :=
    mul_nonneg hr hdt
  linarith

end FlightDynamics

/-! ## Claim theorems -/

/-- C2: for every dynamics state with battery in [0,100] (and the class
invariants `0 ≤ speed`, `0 < maxSpeed` maintained by the constructor and
`setTargetSpeed`), every `dt ≥ 0` and every target including `null`, one
`FlightDynamics.update` call leaves the battery in [0,100]: the drain branch
clamps below at 0 and the charging branch clamps above at 100. -/
theorem spec_c2_update_battery_in_range (m : JsMath) (hm : m.Ok) (dt : ℚ)
    (target : Option SPoint) (s : DynamicsState) (hdt : 0 ≤ dt)
    (hb0 : 0 ≤ s.battery) (hb1 : s.battery ≤ 100)
    (hs : 0 ≤ s.speed) (hms : 0 < s.maxSpeed) :
    0 ≤ (FlightDynamics.update m dt target s).battery ∧
    (FlightDynamics.update m dt target s).battery ≤ 100 := by
  by_cases hch : s.state = DroneLifecycle.CHARGING
  · simp only [FlightDynamics.update, if_pos hch, FlightDynamics.updateCharging]
    exact ⟨le_min (by norm_num) (by linarith), min_le_left _ _⟩
  · simp only [FlightDynamics.update, if_neg hch]
    set s1 := if s.state = DroneLifecycle.FLYING ∨ s.state = DroneLifecycle.RTH then
      FlightDynamics.updateMovement m dt target s else s with hs1
    have h1 : s1.battery = s.battery := by
      rw [hs1]; split
      · exact (FlightDynamics.updateMovement_frame m dt target s).1
      · rfl
    have h2 : 0 ≤ s1.speed := by
      rw [hs1]; split
      · exact FlightDynamics.updateMovement_speed_nonneg m hm dt target s hdt hs hms
      · exact hs
    have h3 : s1.maxSpeed = s.maxSpeed := by
      rw [hs1]; split
      · exact (FlightDynamics.updateMovement_frame m dt target s).2.1
      · rfl
    have hbb := FlightDynamics.updateBattery_bounds dt s1 hdt h2
      (by rw [h3]; exact hms) (by rw [h1]; exact hb0)
    rw [h1] at hbb
    exact ⟨hbb.1, by linarith [hbb.2]⟩

/-- C2 witness: a concrete evaluation of the theorem at `flyProbe`. -/
theorem spec_c2_update_battery_in_range_witness :
    0 ≤ (FlightDynamics.update absMath 1 (some ⟨1, 1⟩) flyProbe).battery ∧
    (FlightDynamics.update absMath 1 (some ⟨1, 1⟩) flyProbe).battery ≤ 100 :=
  spec_c2_update_battery_in_range absMath absMath_ok 1 (some ⟨1, 1⟩) flyProbe
    (by norm_num) (by norm_num [flyProbe]) (by norm_num [flyProbe])
    (by norm_num [flyProbe]) (by norm_num [flyProbe])

/-- C3: for positive `dt` and any target, `FlightDynamics.update` is monotone
in battery per lifecycle state: non-increasing while FLYING or RTH;
non-decreasing while CHARGING, saturating at exactly 100, with the lifecycle
switching to IDLE on reaching 100. -/
theorem spec_c3_battery_monotone (m : JsMath) (hm : m.Ok) (dt : ℚ)
    (target : Option SPoint) (s : DynamicsState) (hdt : 0 < dt)
    (hb0 : 0 ≤ s.battery) (hb1 : s.battery ≤ 100)
    (hs : 0 ≤ s.speed) (hms : 0 < s.maxSpeed) :
    ((s.state = DroneLifecycle.FLYING ∨ s.state = DroneLifecycle.RTH) →
      (FlightDynamics.update m dt target s).battery ≤ s.battery) ∧
    (s.state = DroneLifecycle.CHARGING →
      s.battery ≤ (FlightDynamics.update m dt target s).battery ∧
      (FlightDynamics.update m dt target s).battery ≤ 100 ∧
      (s.battery = 100 → (FlightDynamics.update m dt target s).battery = 100) ∧
      ((FlightDynamics.update m dt target s).battery = 100 →
        (FlightDynamics.update m dt target s).state = DroneLifecycle.IDLE)) := by
  constructor
  · intro hfr
    have hch : s.state ≠ DroneLifecycle.CHARGING := by
      rcases hfr with h | h <;> simp [h]
    simp only [FlightDynamics.update, if_neg hch, if_pos hfr]
    have h1 := FlightDynamics.updateMovement_frame m dt target s
    have h2 := FlightDynamics.updateMovement_speed_nonneg m hm dt target s hdt.le hs hms
    have hbb := FlightDynamics.updateBattery_bounds dt
      (FlightDynamics.updateMovement m dt target s) hdt.le h2
      (by rw [h1.2.1]; exact hms) (by rw [h1.1]; exact hb0)
    calc (FlightDynamics.updateBattery dt
        (FlightDynamics.updateMovement m dt target s)).battery
        ≤ (FlightDynamics.updateMovement m dt target s).battery := hbb.2
      _ = s.battery := h1.1
  · intro hch
    simp only [FlightDynamics.update, if_pos hch, FlightDynamics.updateCharging]
    refine ⟨le_min hb1 (by linarith), min_le_left _ _, ?_, ?_⟩
    · intro h100
      rw [h100]
      exact min_eq_left (by linarith)
    · intro hbat
      have hb2 : min (100 : ℚ) (s.battery + 2 * dt) = 100 := hbat
      show (if (100 : ℚ) ≤ min 100 (s.battery + 2 * dt) then DroneLifecycle.IDLE
        else s.state) = DroneLifecycle.IDLE
      rw [hb2]
      simp

/-- C3 witness: concrete evaluations of the theorem at `flyProbe` (battery
non-increasing) and `chargeProbe` (battery non-decreasing, capped at 100). -/
theorem spec_c3_battery_monotone_witness :
    (FlightDynamics.update absMath 1 (some ⟨1, 1⟩) flyProbe).battery ≤ flyProbe.battery ∧
    chargeProbe.battery ≤ (FlightDynamics.update absMath 1 none chargeProbe).battery ∧
    (FlightDynamics.update absMath 1 none chargeProbe).battery ≤ 100 :=
  ⟨(spec_c3_battery_monotone absMath absMath_ok 1 (some ⟨1, 1⟩) flyProbe
      (by norm_num) (by norm_num [flyProbe]) (by norm_num [flyProbe])
      (by norm_num [flyProbe]) (by norm_num [flyProbe])).1 (Or.inl rfl),
   ((spec_c3_battery_monotone absMath absMath_ok 1 none chargeProbe
      (by norm_num) (by norm_num [chargeProbe]) (by norm_num [chargeProbe])
      (by norm_num [chargeProbe]) (by norm_num [chargeProbe])).2 rfl).1,
   ((spec_c3_battery_monotone absMath absMath_ok 1 none chargeProbe
      (by norm_num) (by norm_num [chargeProbe]) (by norm_num [chargeProbe])
      (by norm_num [chargeProbe]) (by norm_num [chargeProbe])).2 rfl).2.1⟩

/-- C8 counterexample: with a `null` target and the drone FLYING, one update
tick drains the battery (from 100 to 99.95 here), so the claim that position
*and battery* are left unchanged is false on the code. -/
theorem spec_c8_counterexample :
    (FlightDynamics.update absMath 1 none pausedProbe).battery ≠ pausedProbe.battery := by
  show max (0 : ℚ) (100 - (1 / 20 + 0 / 15 * (1 / 10)) * 1) ≠ (100 : ℚ)
  rw [show ((1 : ℚ) / 20 + 0 / 15 * (1 / 10)) * 1 = 1 / 20 by norm_num,
    max_eq_right (by norm_num : (0 : ℚ) ≤ 100 - 1 / 20)]
  norm_num

/-- C8 amended: with a `null` target, `FlightDynamics.update` leaves
position, altitude, speed and heading unchanged (so a paused mission does not
drift in space), but the battery still follows the normal drain/charge model,
and the charging branch may switch the lifecycle state to IDLE. -/
theorem spec_c8_null_target_holds_position (m : JsMath) (dt : ℚ) (s : DynamicsState) :
    (FlightDynamics.update m dt none s).position = s.position ∧
    (FlightDynamics.update m dt none s).altitude = s.altitude ∧
    (FlightDynamics.update m dt none s).speed = s.speed ∧
    (FlightDynamics.update m dt none s).heading = s.heading := by
  by_cases hch : s.state = DroneLifecycle.CHARGING
  · simp [FlightDynamics.update, hch, FlightDynamics.updateCharging]
  · simp only [FlightDynamics.update, if_neg hch]
    split <;> simp [FlightDynamics.updateMovement, FlightDynamics.updateBattery]

/-- An active simulation handle used by concrete registry scenarios. -/
def probeHandle : SimHandle :=
  { timerActive := true, dynamics := flyProbe, path := [⟨0, 0⟩] }

/-- A registry entry for a mission id makes `regCount` positive; conversely an
absent id has count 0. -/
lemma regFind_none_count : ∀ (reg : Registry) (missionId : String),
    regFind reg missionId = none → regCount reg missionId = 0
  | [], _, _ => rfl
  | (k, v) :: rest, missionId, h => by
    simp only [regFind] at h
    by_cases hk : k = missionId
    · rw [if_pos hk] at h
      exact absurd h (by simp)
    · rw [if_neg hk] at h
      have h0 : List.countP (fun e => e.1 == missionId) rest = 0 :=
        regFind_none_count rest missionId h
      simp only [regCount, List.countP_cons, h0]
      simp [hk]

/-- C1: starting a mission that already has a registry entry is a complete
no-op (same registry, no timer, no event, existing handle untouched), and a
start on a fresh id followed by a second start leaves exactly one handle. -/
theorem spec_c1_start_idempotent (missions : String → Option SimMission)
    (reg : Registry) (missionId : String) (ov : Option String) :
    ((regFind reg missionId).isSome →
      SimulationService.startSimulation missions reg missionId ov =
        { err := none, registry := reg, events := [] }) ∧
    (∀ r1 e1, regFind reg missionId = none →
      SimulationService.startSimulation missions reg missionId ov =
        { err := none, registry := r1, events := e1 } →
      regCount r1 missionId = 1 ∧
      SimulationService.startSimulation missions r1 missionId ov =
        { err := none, registry := r1, events := [] }) := by
  constructor
  · intro h
    simp [SimulationService.startSimulation, h]
  · intro r1 e1 hnone heq
    cases hmiss : missions missionId with
    | none => simp [SimulationService.startSimulation, hnone, hmiss] at heq
    | some mission =>
      cases hgen : PathStrategies.generate
          (ov.getD (mission.flight_pattern.getD "grid")) mission.survey_area with
      | error e => simp [SimulationService.startSimulation, hnone, hmiss, hgen] at heq
      | ok flightPath =>
        by_cases hemp : flightPath.isEmpty = true
        · simp [SimulationService.startSimulation, hnone, hmiss, hgen, hemp] at heq
        · simp only [SimulationService.startSimulation, hnone, hmiss, hgen,
            Option.isSome_none, Bool.false_eq_true, if_false, hemp] at heq
          have hr1 : ((missionId,
              (⟨true,
               FlightDynamics.setTargetSpeed
                 { FlightDynamics.mkDynamics flightPath.head? 0 (some 100) with
                     state := DroneLifecycle.TAKEOFF } (mission.speed.getD 10),
               flightPath⟩ : SimHandle)) :: reg) = r1 :=
            congrArg StartResult.registry heq
          subst hr1
          constructor
          · have h0 : List.countP (fun e => e.1 == missionId) reg = 0 :=
              regFind_none_count reg missionId hnone
            simp [regCount, List.countP_cons, h0]
          · simp [SimulationService.startSimulation, regFind]

/-- C1 witness: with `"m1"` already registered, a start call returns without
touching the registry or emitting events. -/
theorem spec_c1_start_idempotent_witness :
    SimulationService.startSimulation (fun _ => none) [("m1", probeHandle)] "m1" none =
      { err := none, registry := [("m1", probeHandle)], events := [] } :=
  (spec_c1_start_idempotent (fun _ => none) [("m1", probeHandle)] "m1" none).1 rfl

/-- C10: for a mission id absent from the registry, `stopSimulation`,
`setSpeed`, `triggerRTH` and `pauseSimulation` are silent no-ops that leave
the whole registry (hence every other mission's simulation) unchanged; none
of them has a throwing path in the source. -/
theorem spec_c10_absent_id_noops (reg : Registry) (missionId : String) (speed : ℚ)
    (h : regFind reg missionId = none) :
    SimulationService.stopSimulation reg missionId = reg ∧
    SimulationService.setSpeed reg missionId speed = reg ∧
    SimulationService.triggerRTH reg missionId = reg ∧
    SimulationService.pauseSimulation reg missionId = reg := by
  simp [SimulationService.stopSimulation, SimulationService.setSpeed,
    SimulationService.triggerRTH, SimulationService.pauseSimulation, h]

/-- C10 witness: concrete no-ops on a registry that holds a different
mission. -/
theorem spec_c10_absent_id_noops_witness :
    SimulationService.stopSimulation [("m1", probeHandle)] "m2" = [("m1", probeHandle)] ∧
    SimulationService.setSpeed [("m1", probeHandle)] "m2" 5 = [("m1", probeHandle)] ∧
    SimulationService.triggerRTH [("m1", probeHandle)] "m2" = [("m1", probeHandle)] ∧
    SimulationService.pauseSimulation [("m1", probeHandle)] "m2" = [("m1", probeHandle)] :=
  spec_c10_absent_id_noops [("m1", probeHandle)] "m2" 5 rfl

/-- C9: `resumeSimulation` is the identity on the registry (its source body
is empty), so pausing and then resuming a running mission retains the
dynamics state bit-for-bit but never re-creates the tick timer: the mission
does not continue ticking, contradicting the claim's resumption half. -/
theorem spec_c9_resume_never_restarts_tick :
    (∀ (reg : Registry) (missionId : String),
      SimulationService.resumeSimulation reg missionId = reg) ∧
    SimulationService.resumeSimulation
        (SimulationService.pauseSimulation [("m1", probeHandle)] "m1") "m1" =
      [("m1", { probeHandle with timerActive := false })] :=
  ⟨fun _ _ => rfl, rfl⟩

/-- The mission table used by the C5 counterexample: `"m1"` resolves to a
`'waypoint'`-pattern mission whose survey area has an empty coordinates
list. -/
def missionsBad : String → Option SimMission := fun missionId =>
  if missionId = "m1" then
    some { drone_id := "d1", flight_pattern := some "waypoint"
           survey_area := some { type := "Polygon", coordinates := some [] }
           speed := none }
  else none

/-- C5 counterexample: the mission resolves and path generation does not
return an empty sequence — it throws a `TypeError` (the `'waypoint'` branch
is not wrapped in `try/catch`), a third synchronous failure mode beyond the
two the claim allows. -/
theorem spec_c5_counterexample :
    (missionsBad "m1").isSome = true ∧
    (SimulationService.startSimulation missionsBad [] "m1" none).err.isSome = true ∧
    (SimulationService.startSimulation missionsBad [] "m1" none).err ≠
      some (JsErr.error "Mission not found") ∧
    (SimulationService.startSimulation missionsBad [] "m1" none).err ≠
      some (JsErr.error "Could not generate flight path") := by
  decide

/-- C5 amended: `startSimulation` fails synchronously when the mission cannot
be resolved (`'Mission not found'`) or when path generation returns an empty
sequence (`'Could not generate flight path'`) — and additionally when the
generator itself throws (the `'waypoint'`/no-ring `TypeError`); in every
synchronous failure no handle is inserted, no tick timer is created and no
`started` status event is emitted. -/
theorem spec_c5_start_failure_modes (missions : String → Option SimMission)
    (reg : Registry) (missionId : String) (ov : Option String)
    (hnew : regFind reg missionId = none) :
    (missions missionId = none →
      SimulationService.startSimulation missions reg missionId ov =
        { err := some (JsErr.error "Mission not found"), registry := reg, events := [] }) ∧
    (∀ mission, missions missionId = some mission →
      PathStrategies.generate (ov.getD (mission.flight_pattern.getD "grid"))
          mission.survey_area = .ok [] →
      SimulationService.startSimulation missions reg missionId ov =
        { err := some (JsErr.error "Could not generate flight path"),
          registry := reg, events := [] }) ∧
    ((SimulationService.startSimulation missions reg missionId ov).err.isSome →
      (SimulationService.startSimulation missions reg missionId ov).registry = reg ∧
      (SimulationService.startSimulation missions reg missionId ov).events = []) := by
  refine ⟨?_, ?_, ?_⟩
  · intro hmiss
    simp [SimulationService.startSimulation, hnew, hmiss]
  · intro mission hmiss hgen
    simp [SimulationService.startSimulation, hnew, hmiss, hgen]
  · intro herr
    cases hmiss : missions missionId with
    | none => simp [SimulationService.startSimulation, hnew, hmiss]
    | some mission =>
      cases hgen : PathStrategies.generate
          (ov.getD (mission.flight_pattern.getD "grid")) mission.survey_area with
      | error e => simp [SimulationService.startSimulation, hnew, hmiss, hgen]
      | ok flightPath =>
        by_cases hemp : flightPath.isEmpty = true
        · simp [SimulationService.startSimulation, hnew, hmiss, hgen, hemp]
        · exfalso
          simp [SimulationService.startSimulation, hnew, hmiss, hgen, hemp] at herr

/-- `Mission.update` on the key a `findById` succeeded on finds the updated
row. -/
lemma findMission_update : ∀ (rows : List (String × MissionRec)) (missionId : String)
    (f : MissionRec → MissionRec) (m : MissionRec),
    findMission rows missionId = some m →
    findMission (updateMission rows missionId f) missionId = some (f m)
  | [], _, _, _, h => by simp [findMission] at h
  | (k, v) :: rest, missionId, f, m, h => by
    simp only [findMission] at h
    by_cases hk : k = missionId
    · subst hk
      rw [if_pos rfl] at h
      obtain rfl : v = m := Option.some.inj h
      have hg : (if (k, v).1 = k then ((k, v).1, f (k, v).2) else (k, v)) = (k, f v) :=
        if_pos rfl
      show findMission
        ((if (k, v).1 = k then ((k, v).1, f (k, v).2) else (k, v)) ::
          List.map (fun e => if e.1 = k then (e.1, f e.2) else e) rest) k = some (f v)
      rw [hg]
      show (if k = k then some (f v)
        else findMission (List.map (fun e => if e.1 = k then (e.1, f e.2) else e) rest) k) =
        some (f v)
      rw [if_pos (rfl : k = k)]
    · rw [if_neg hk] at h
      have ih := findMission_update rest missionId f m h
      simp only [updateMission, List.map_cons] at ih ⊢
      have hg : (if (k, v).1 = missionId then ((k, v).1, f (k, v).2) else (k, v)) = (k, v) := by
        simp [hk]
      rw [hg]
      simp only [findMission, if_neg hk]
      exact ih

/-- C4: `_changeStatus` accepts a requested transition exactly when the
target state is listed under the current state in `VALID_TRANSITIONS`; any
other request — including every transition out of the terminal states
`completed` and `aborted` — throws and leaves the stored data unchanged. -/
theorem spec_c4_transition_graph_enforced (db : ControlDb)
    (missionId newState userId : String) (now : ℚ) (mission : MissionRec)
    (hfind : findMission db.missions missionId = some mission) :
    (MissionControl.isValidTransition mission.status newState = true →
      (MissionControl.changeStatus db missionId newState userId now).err = none ∧
      (findMission (MissionControl.changeStatus db missionId newState userId now).db.missions
          missionId).map MissionRec.status = some newState) ∧
    (MissionControl.isValidTransition mission.status newState = false →
      (MissionControl.changeStatus db missionId newState userId now).err.isSome = true ∧
      (MissionControl.changeStatus db missionId newState userId now).db = db) ∧
    (∀ target : String,
      MissionControl.isValidTransition "completed" target = false ∧
      MissionControl.isValidTransition "aborted" target = false) := by
  refine ⟨?_, ?_, fun target => ⟨rfl, rfl⟩⟩
  · intro hvalid
    constructor
    · simp [MissionControl.changeStatus, hfind, hvalid]
    · simp only [MissionControl.changeStatus, hfind, hvalid, Bool.not_true,
        Bool.false_eq_true, if_false]
      rw [findMission_update db.missions missionId _ mission hfind]
      show some _ = some newState
      congr 1
      split <;> split <;> rfl
  · intro hvalid
    constructor
    · simp [MissionControl.changeStatus, hfind, hvalid]
    · simp [MissionControl.changeStatus, hfind, hvalid]

/-- C4 witness: on a concrete store, `planned → starting` is accepted and
`planned → completed` is rejected without touching the store. -/
theorem spec_c4_transition_graph_enforced_witness :
    (MissionControl.changeStatus
        ⟨[("m1", ⟨"planned", some "d1", none, none⟩)], [("d1", "available")], []⟩
        "m1" "starting" "u1" 0).err = none ∧
    (MissionControl.changeStatus
        ⟨[("m1", ⟨"planned", some "d1", none, none⟩)], [("d1", "available")], []⟩
        "m1" "completed" "u1" 0).err.isSome = true ∧
    (MissionControl.changeStatus
        ⟨[("m1", ⟨"planned", some "d1", none, none⟩)], [("d1", "available")], []⟩
        "m1" "completed" "u1" 0).db =
      ⟨[("m1", ⟨"planned", some "d1", none, none⟩)], [("d1", "available")], []⟩ :=
  ⟨((spec_c4_transition_graph_enforced
      ⟨[("m1", ⟨"planned", some "d1", none, none⟩)], [("d1", "available")], []⟩
      "m1" "starting" "u1" 0 ⟨"planned", some "d1", none, none⟩ rfl).1 rfl).1,
   ((spec_c4_transition_graph_enforced
      ⟨[("m1", ⟨"planned", some "d1", none, none⟩)], [("d1", "available")], []⟩
      "m1" "completed" "u1" 0 ⟨"planned", some "d1", none, none⟩ rfl).2.1 rfl).1,
   ((spec_c4_transition_graph_enforced
      ⟨[("m1", ⟨"planned", some "d1", none, none⟩)], [("d1", "available")], []⟩
      "m1" "completed" "u1" 0 ⟨"planned", some "d1", none, none⟩ rfl).2.1 rfl).2⟩

/-- C6 counterexample: the server-side `PathStrategies.generate` performs no
vertex-count or finiteness validation: a survey area whose ring has only two
(finite) vertices yields those two waypoints under the `'waypoint'` pattern
instead of the empty sequence the claim requires. -/
theorem spec_c6_counterexample :
    PathStrategies.generate "waypoint"
        (some ⟨"Polygon", some [[((0 : ℚ), (0 : ℚ)), (1, 0)]]⟩) =
      Except.ok [⟨0, 0⟩, ⟨0, 1⟩] ∧
    ([((0 : ℚ), (0 : ℚ)), (1, 0)] : List (ℚ × ℚ)).length < 3 :=
  ⟨rfl, by norm_num⟩

/-- C6 amended: the client-side `FlightPathGenerator.generate` returns `[]`
(rather than throwing) for every mission type whenever the outer ring has
fewer than 3 vertices or contains a malformed or non-finite coordinate; the
server-side `PathStrategies.generate` performs no such validation. -/
theorem spec_c6_client_rejects_degenerate_areas (m : JsMath) (area : ClientArea)
    (rings : List (List RawCoord)) (coords : List RawCoord)
    (missionType : String) (p : CParams)
    (harea : area.coordinates = some rings)
    (hring : rings.head? = some coords)
    (hbad : coords.length < 3 ∨ coords.any FlightPathGenerator.badCoord = true) :
    FlightPathGenerator.generate m (some area) missionType p = [] := by
  simp only [FlightPathGenerator.generate, harea, hring]
  rcases hbad with h | h
  · rw [if_pos h]
  · by_cases hlen : coords.length < 3
    · rw [if_pos hlen]
    · rw [if_neg hlen, if_pos h]

/-- C6 witness: a two-vertex ring is rejected by the client generator. -/
theorem spec_c6_client_rejects_degenerate_areas_witness :
    FlightPathGenerator.generate absMath
        (some ⟨some [[[some 0, some 0], [some 1, some 0]]]⟩) "grid" defaultParams = [] :=
  spec_c6_client_rejects_degenerate_areas absMath
    ⟨some [[[some 0, some 0], [some 1, some 0]]]⟩
    [[[some 0, some 0], [some 1, some 0]]]
    [[some 0, some 0], [some 1, some 0]]
    "grid" defaultParams rfl rfl (Or.inl (by norm_num))

/-- The first interpolated point of a segment is exactly its start point. -/
lemma interpolatePoints_head (s e : CPoint) (n : Nat) (smooth : Bool) :
    (FlightPathGenerator.interpolatePoints s e n smooth).head? = some s := by
  simp only [FlightPathGenerator.interpolatePoints, List.range_succ_eq_map,
    List.map_cons, List.head?_cons]
  cases smooth <;> simp [FlightPathGenerator.easeInOutQuad]

/-- `gridExpand` on a first scan line (no previous line) starts with the
line's start point. -/
lemma gridExpand_cons_head (m : JsMath) (radius : ℚ) (s e : CPoint)
    (rest : List (CPoint × CPoint)) :
    (FlightPathGenerator.gridExpand m radius ((s, e) :: rest) none).head? = some s := by
  simp only [FlightPathGenerator.gridExpand, List.nil_append]
  rw [List.head?_append_of_ne_nil]
  · exact interpolatePoints_head s e 20 false
  · simp [FlightPathGenerator.interpolatePoints, List.range_succ_eq_map]

/-- Characterisation of the grid sweep loop: the `k`-th scan line sits at
`lat + k·spacing` and sweeps in the starting direction exactly when `k` is
even. -/
lemma gridSegsAux_getD :
    ∀ (fuel k : Nat) (lat maxLat minLng maxLng spacing : ℚ) (dir : Bool),
      k < (FlightPathGenerator.gridSegsAux fuel lat maxLat minLng maxLng spacing dir).length →
      (FlightPathGenerator.gridSegsAux fuel lat maxLat minLng maxLng spacing dir).getD k
          ((0, 0), (0, 0)) =
        ((lat + (k : ℚ) * spacing,
            if (if k % 2 = 0 then dir else !dir) then minLng else maxLng),
         (lat + (k : ℚ) * spacing,
            if (if k % 2 = 0 then dir else !dir) then maxLng else minLng))
  | 0, k, lat, maxLat, minLng, maxLng, spacing, dir, h => by
    simp [FlightPathGenerator.gridSegsAux] at h
  | fuel + 1, k, lat, maxLat, minLng, maxLng, spacing, dir, h => by
    by_cases hle : lat ≤ maxLat
    · cases k with
      | zero => simp [FlightPathGenerator.gridSegsAux, hle]
      | succ k =>
        have hlen : k < (FlightPathGenerator.gridSegsAux fuel (lat + spacing) maxLat
            minLng maxLng spacing (!dir)).length := by
          rw [FlightPathGenerator.gridSegsAux, if_pos hle] at h
          simpa using h
        have ih := gridSegsAux_getD fuel k (lat + spacing) maxLat minLng maxLng spacing
          (!dir) hlen
        rw [FlightPathGenerator.gridSegsAux, if_pos hle, List.getD_cons_succ, ih]
        have hlat : lat + spacing + (k : ℚ) * spacing = lat + ((k : ℚ) + 1) * spacing := by
          ring
        have hpar : (if (k + 1) % 2 = 0 then dir else !dir) =
            (if k % 2 = 0 then !dir else !(!dir)) := by
          rcases Nat.even_or_odd k with he | ho


          · have h1 : k % 2 = 0 := Nat.even_iff.mp he
            have h2 : (k + 1) % 2 = 1 := by omega
            simp [h1, h2]
          · have h1 : k % 2 = 1 := Nat.odd_iff.mp ho
            have h2 : (k + 1) % 2 = 0 := by omega
            simp [h1, h2, Bool.not_not]
        rw [hpar, Bool.not_not]
        push_cast
        rw [hlat]
    · rw [FlightPathGenerator.gridSegsAux, if_neg hle] at h
      simp at h

/-- C7: the grid pattern's scan-line spacing is
`pathSpacing × (1 − overlap + 0.3)` (so `pathSpacing × 0.6` at 70 % overlap),
the first generated waypoint is the bounding box's minimum-latitude,
minimum-longitude corner, and the `k`-th scan line sits at
`minLat + k·spacing`, sweeping min→max longitude for even `k` and max→min
for odd `k` (alternating boustrophedon direction). -/
theorem spec_c7_grid_pattern (m : JsMath) (b : FlightPathGenerator.CBounds)
    (p : CParams) (hle : b.minLat ≤ b.maxLat) :
    FlightPathGenerator.gridSpacing p.pathSpacing p.overlap =
      p.pathSpacing * (1 - p.overlap + 3 / 10) ∧
    (p.overlap = 7 / 10 →
      FlightPathGenerator.gridSpacing p.pathSpacing p.overlap =
        p.pathSpacing * (6 / 10)) ∧
    (FlightPathGenerator.generateGridPath m b p).head? = some (b.minLat, b.minLng) ∧
    (∀ k : Nat,
      k < (FlightPathGenerator.gridSegs b
            (FlightPathGenerator.gridSpacing p.pathSpacing p.overlap)).length →
      (FlightPathGenerator.gridSegs b
          (FlightPathGenerator.gridSpacing p.pathSpacing p.overlap)).getD k
          ((0, 0), (0, 0)) =
        ((b.minLat + (k : ℚ) * FlightPathGenerator.gridSpacing p.pathSpacing p.overlap,
            if k % 2 = 0 then b.minLng else b.maxLng),
         (b.minLat + (k : ℚ) * FlightPathGenerator.gridSpacing p.pathSpacing p.overlap,
            if k % 2 = 0 then b.maxLng else b.minLng))) := by
  refine ⟨rfl, ?_, ?_, ?_⟩
  · intro hov
    rw [FlightPathGenerator.gridSpacing, hov]
    ring
  · rw [FlightPathGenerator.generateGridPath]
    have hcons : FlightPathGenerator.gridSegs b
        (FlightPathGenerator.gridSpacing p.pathSpacing p.overlap) =
        ((b.minLat, b.minLng), (b.minLat, b.maxLng)) ::
          FlightPathGenerator.gridSegsAux
            (⌈(b.maxLat - b.minLat) / FlightPathGenerator.gridSpacing p.pathSpacing p.overlap⌉.toNat)
            (b.minLat + FlightPathGenerator.gridSpacing p.pathSpacing p.overlap)
            b.maxLat b.minLng b.maxLng
            (FlightPathGenerator.gridSpacing p.pathSpacing p.overlap) (!true) := by
      rw [FlightPathGenerator.gridSegs, PathStrategies.gridFuelSrv,
        FlightPathGenerator.gridSegsAux, if_pos hle]
      rfl
    rw [hcons]
    exact gridExpand_cons_head m p.turningRadius _ _ _
  · intro k hk
    have h := gridSegsAux_getD
      (PathStrategies.gridFuelSrv b.minLat b.maxLat
        (FlightPathGenerator.gridSpacing p.pathSpacing p.overlap))
      k b.minLat b.maxLat b.minLng b.maxLng
      (FlightPathGenerator.gridSpacing p.pathSpacing p.overlap) true hk
    rw [FlightPathGenerator.gridSegs, h]
    by_cases hpar : k % 2 = 0 <;> simp [hpar]

/-- C7 witness: a concrete unit box with the default parameters (70 %
overlap): the head waypoint is the min corner and the second scan line sits
one spacing above the first, swept in the opposite direction. -/
theorem spec_c7_grid_pattern_witness :
    (FlightPathGenerator.generateGridPath absMath ⟨0, 1, 0, 1, 1/2, 1/2⟩
        defaultParams).head? = some (0, 0) ∧
    FlightPathGenerator.gridSpacing defaultParams.pathSpacing defaultParams.overlap =
      defaultParams.pathSpacing * (6 / 10) :=
  ⟨(spec_c7_grid_pattern absMath ⟨0, 1, 0, 1, 1/2, 1/2⟩ defaultParams
      (by norm_num)).2.2.1,
   (spec_c7_grid_pattern absMath ⟨0, 1, 0, 1, 1/2, 1/2⟩ defaultParams
      (by norm_num)).2.1 rfl⟩

/-- A mission table whose `"m2"` mission has no survey area, so every
generator returns an empty path. -/
def missionsNoArea : String → Option SimMission := fun missionId =>
  if missionId = "m2" then
    some { drone_id := "d1", flight_pattern := none, survey_area := none, speed := none }
  else none

/-- C5 witness: both named failure modes exercised concretely. -/
theorem spec_c5_start_failure_modes_witness :
    SimulationService.startSimulation (fun _ => none) [] "m1" none =
      { err := some (JsErr.error "Mission not found"), registry := [], events := [] } ∧
    SimulationService.startSimulation missionsNoArea [] "m2" none =
      { err := some (JsErr.error "Could not generate flight path"),
        registry := [], events := [] } :=
  ⟨(spec_c5_start_failure_modes (fun _ => none) [] "m1" none rfl).1 rfl,
   (spec_c5_start_failure_modes missionsNoArea [] "m2" none rfl).2.1
     { drone_id := "d1", flight_pattern := none, survey_area := none, speed := none }
     rfl rfl⟩
